/-
Verification development for the market analysis and trade-signal engine
(`mcp/ai_analysis_engine.go` and the strategy-tool file of the same package).

The Go code works on IEEE-754 float64; here every float is modelled as a
rational number (ℚ).  Division by zero — which in Go produces NaN or ±Inf —
totalises to 0 in ℚ; wherever a claim hinges on such a case the development
introduces an explicit Option-valued variant making the undefined result
visible (see stochasticK?).  Go `int` values are modelled as ℤ and the Go
float→int conversion (truncation toward zero) as `goInt`.  Go strings are
Lean `String`s.  The numeric text produced by fmt.Sprintf("%.1f", ...) inside
reason messages is not load-bearing for any property and is rendered by the
exact rational printer instead.
-/
import Mathlib

namespace KiteMCP

/-- Go's float64→int conversion: truncation toward zero. -/
def goInt (x : ℚ) : ℤ := if 0 ≤ x then ⌊x⌋ else ⌈x⌉

/-- Go's math.Round: round half away from zero. -/
def goRound (x : ℚ) : ℤ := if 0 ≤ x then ⌊x + 1/2⌋ else ⌈x - 1/2⌉

/-- Rational stand-in for Go's math.Sqrt (IEEE double).  No verified property
depends on the value of a square root (it only feeds the Bollinger width,
which every theorem quantifies over), so a fixed-point approximation through
Nat.sqrt keeps the development computable. -/
def sqrtQ (x : ℚ) : ℚ :=
  if x ≤ 0 then 0 else (Nat.sqrt (⌊x * 1000000000000⌋.toNat) : ℚ) / 1000000

/-- Go struct MACDValues. -/
structure MACDValues where
  MACD      : ℚ
  Signal    : ℚ
  Histogram : ℚ
  Crossover : String
  deriving Repr, DecidableEq

/-- Go struct StochasticValues. -/
structure StochasticValues where
  K          : ℚ
  D          : ℚ
  Oversold   : Bool
  Overbought : Bool
  deriving Repr, DecidableEq

/-- Go struct BollingerValues. -/
structure BollingerValues where
  Upper  : ℚ
  Middle : ℚ
  Lower  : ℚ
  Width  : ℚ
  deriving Repr, DecidableEq

/-- Go struct VolumeProfileData. -/
structure VolumeProfileData where
  POC              : ℚ
  VAH              : ℚ
  VAL              : ℚ
  VolumeIncrease   : Bool
  AccumulationDist : ℚ
  deriving Repr, DecidableEq

/-- Go struct TechnicalIndicators. -/
structure TechnicalIndicators where
  Support        : List ℚ
  Resistance     : List ℚ
  Trend          : String
  TrendStrength  : ℚ
  SMA20          : ℚ
  SMA50          : ℚ
  SMA200         : ℚ
  EMA9           : ℚ
  EMA21          : ℚ
  VWAP           : ℚ
  RSI            : ℚ
  RSIDivergence  : Bool
  MACD           : MACDValues
  Stochastic     : StochasticValues
  BollingerBands : BollingerValues
  ATR            : ℚ
  VolumeProfile  : VolumeProfileData
  CandlePattern  : String
  ChartPattern   : String
  BullishScore   : ℚ
  BearishScore   : ℚ
  deriving Repr, DecidableEq

/-- The Go zero value of TechnicalIndicators (what `TechnicalIndicators{}`
denotes): empty slices, empty strings, zero numbers, false booleans. -/
def TechnicalIndicators.zero : TechnicalIndicators where
  Support        := []
  Resistance     := []
  Trend          := ""
  TrendStrength  := 0
  SMA20          := 0
  SMA50          := 0
  SMA200         := 0
  EMA9           := 0
  EMA21          := 0
  VWAP           := 0
  RSI            := 0
  RSIDivergence  := false
  MACD           := { MACD := 0, Signal := 0, Histogram := 0, Crossover := "" }
  Stochastic     := { K := 0, D := 0, Oversold := false, Overbought := false }
  BollingerBands := { Upper := 0, Middle := 0, Lower := 0, Width := 0 }
  ATR            := 0
  VolumeProfile  := { POC := 0, VAH := 0, VAL := 0, VolumeIncrease := false,
                      AccumulationDist := 0 }
  CandlePattern  := ""
  ChartPattern   := ""
  BullishScore   := 0
  BearishScore   := 0

/-- Go struct RiskRewardAnalysis.  The Go field RiskRewardRatio is named
`RatioRR` here. -/
structure RiskRewardAnalysis where
  EntryPrice   : ℚ
  StopLoss     : ℚ
  Target1      : ℚ
  Target2      : ℚ
  Target3      : ℚ
  RiskAmount   : ℚ
  RewardAmount : ℚ
  RatioRR      : ℚ
  PositionSize : ℤ
  MaxLoss      : ℚ
  MaxProfit    : ℚ
  deriving Repr, DecidableEq

/-- Go struct TradeSignal. -/
structure TradeSignal where
  Action         : String
  Strength       : String
  Timeframe      : String
  Strategy       : String
  Reasons        : List String
  Warnings       : List String
  ExpectedReturn : ℚ
  HoldingPeriod  : String
  Priority       : ℤ
  deriving Repr, DecidableEq

/-- Go struct FundamentalData. -/
structure FundamentalData where
  PE               : ℚ
  PB               : ℚ
  DebtToEquity     : ℚ
  ROE              : ℚ
  QuarterlyGrowth  : ℚ
  IndustryPE       : ℚ
  RelativeStrength : ℚ
  FundamentalScore : ℚ
  deriving Repr, DecidableEq

/-- Go struct SentimentData. -/
structure SentimentData where
  DeliveryPercent : ℚ
  BulkDeals       : ℤ
  FIIActivity     : String
  OptionsPCR      : ℚ
  OpenInterest    : ℚ
  SentimentScore  : ℚ
  deriving Repr, DecidableEq

/-- Go struct MarketAnalysis.  The Go field TradeSignal is named `Signal`
here; the TimeAnalyzed timestamp is I/O state and is not modelled. -/
structure MarketAnalysis where
  Symbol      : String
  Technical   : TechnicalIndicators
  Fundamental : FundamentalData
  Sentiment   : SentimentData
  RiskReward  : RiskRewardAnalysis
  Signal      : TradeSignal
  Confidence  : ℚ
  deriving Repr, DecidableEq

/-- calculateSMA: arithmetic mean of the last `period` closes, 0 when the
series is shorter than the window. -/
def calculateSMA (prices : List ℚ) (period : ℕ) : ℚ :=
  if prices.length < period then 0
  else (prices.drop (prices.length - period)).sum / (period : ℚ)

/-- calculateEMA: seed with the SMA of the first `period` points, then apply
the multiplier 2/(period+1) over the remaining points in order. -/
def calculateEMA (prices : List ℚ) (period : ℕ) : ℚ :=
  if prices.length < period then 0
  else
    (prices.drop period).foldl
      (fun ema p => (p - ema) * (2 / ((period : ℚ) + 1)) + ema)
      (calculateSMA (prices.take period) period)

/-- The consecutive deltas prices[i] − prices[i−1] over the last
`period`+1 points (the loop body of calculateRSI and calculateATR). -/
def lastDeltaPairs (prices : List ℚ) (period : ℕ) : List (ℚ × ℚ) :=
  let window := prices.drop (prices.length - (period + 1))
  window.zip window.tail

/-- calculateRSI: 50 when fewer than period+1 points, 100 when the average
loss is zero, otherwise 100 − 100/(1+rs). -/
def calculateRSI (prices : List ℚ) (period : ℕ) : ℚ :=
  if prices.length < period + 1 then 50
  else
    let gl := (lastDeltaPairs prices period).foldl
      (fun (acc : ℚ × ℚ) pr =>
        let change := pr.2 - pr.1
        if 0 < change then (acc.1 + change, acc.2) else (acc.1, acc.2 + |change|))
      (0, 0)
    let avgGain := gl.1 / (period : ℚ)
    let avgLoss := gl.2 / (period : ℚ)
    if avgLoss = 0 then 100
    else 100 - 100 / (1 + avgGain / avgLoss)

/-- detectRSIDivergence: position of the first minimum of the last 20 closes
combined with an RSI threshold. -/
def detectRSIDivergence (prices : List ℚ) (rsi : ℚ) : Bool :=
  if prices.length < 20 then false
  else
    let recent := prices.drop (prices.length - 20)
    let acc := recent.enum.foldl
      (fun (acc : ℚ × ℕ) ip => if ip.2 < acc.1 then (ip.2, ip.1) else acc)
      (recent.headD 0, 0)
    decide (10 < acc.2) && decide (rsi < 40)

/-- calculateMACD: EMA(12) − EMA(26); the signal is calculateEMA over the
single-element list containing the MACD value. -/
def calculateMACD (prices : List ℚ) : MACDValues :=
  if prices.length < 26 then { MACD := 0, Signal := 0, Histogram := 0, Crossover := "" }
  else
    let ema12 := calculateEMA prices 12
    let ema26 := calculateEMA prices 26
    let macd := ema12 - ema26
    let signal := calculateEMA [macd] 9
    let histogram := macd - signal
    let crossover :=
      if 0 < histogram ∧ signal * (1/100) < histogram then "bullish"
      else if histogram < 0 ∧ histogram < signal * (-(1/100)) then "bearish"
      else "none"
    { MACD := macd, Signal := signal, Histogram := histogram, Crossover := crossover }

/-- The last `period` closes (the stochastic lookback window). -/
def stochRecent (prices : List ℚ) (period : ℕ) : List ℚ :=
  prices.drop (prices.length - period)

/-- Running-minimum fold exactly as the Go loop writes it. -/
def minFold (l : List ℚ) (init : ℚ) : ℚ :=
  l.foldl (fun low p => if p < low then p else low) init

/-- Running-maximum fold exactly as the Go loop writes it. -/
def maxFold (l : List ℚ) (init : ℚ) : ℚ :=
  l.foldl (fun high p => if high < p then p else high) init

/-- The lowest close of the stochastic window. -/
def stochLowest (prices : List ℚ) (period : ℕ) : ℚ :=
  minFold (stochRecent prices period) ((stochRecent prices period).headD 0)

/-- The highest close of the stochastic window. -/
def stochHighest (prices : List ℚ) (period : ℕ) : ℚ :=
  maxFold (stochRecent prices period) ((stochRecent prices period).headD 0)

/-- calculateStochastic over ℚ.  In Go a constant window makes
(current − lowest)/(highest − lowest) the float division 0/0 = NaN; the ℚ
model totalises that division to 0 — `stochasticK?` below makes the
undefined case explicit. -/
def calculateStochastic (prices : List ℚ) (period _kSmooth _dSmooth : ℕ) :
    StochasticValues :=
  if prices.length < period then
    { K := 0, D := 0, Oversold := false, Overbought := false }
  else
    let lowest := stochLowest prices period
    let highest := stochHighest prices period
    let current := (prices.getLast?).getD 0
    let k := 100 * ((current - lowest) / (highest - lowest))
    { K := k, D := k, Oversold := decide (k < 20), Overbought := decide (80 < k) }

/-- The %K computation with the IEEE semantics of the division made explicit:
`none` stands for the NaN that Go produces when the window's highest equals
its lowest.  For a short series the Go function returns the zero struct, so
K is the defined value 0. -/
def stochasticK? (prices : List ℚ) (period : ℕ) : Option ℚ :=
  if prices.length < period then some 0
  else
    let lowest := stochLowest prices period
    let highest := stochHighest prices period
    let current := (prices.getLast?).getD 0
    if highest - lowest = 0 then none
    else some (100 * ((current - lowest) / (highest - lowest)))

/-- calculateBollingerBands with the standard deviation through `sqrtQ`. -/
def calculateBollingerBands (prices : List ℚ) (period : ℕ) (stdDev : ℚ) :
    BollingerValues :=
  if prices.length < period then { Upper := 0, Middle := 0, Lower := 0, Width := 0 }
  else
    let sma := calculateSMA prices period
    let variance := ((prices.drop (prices.length - period)).map
      (fun p => (p - sma) * (p - sma))).sum
    let std := sqrtQ (variance / (period : ℚ))
    { Upper := sma + std * stdDev
      Middle := sma
      Lower := sma - std * stdDev
      Width := (std * stdDev * 2) / sma * 100 }

/-- calculateATR: true range per bar with the synthetic low 0.98×close,
averaged over the last `period` bars. -/
def calculateATR (prices : List ℚ) (period : ℕ) : ℚ :=
  if prices.length < period + 1 then 0
  else
    let trValues := (lastDeltaPairs prices period).map
      (fun pr =>
        let high := pr.2
        let low := pr.2 * (98/100)
        let prevClose := pr.1
        max (high - low) (max |high - prevClose| |low - prevClose|))
    trValues.sum / (trValues.length : ℚ)

/-- calculateVWAP: Σ(price·volume)/Σvolume, 0 on length mismatch or zero
total volume. -/
def calculateVWAP (prices volumes : List ℚ) : ℚ :=
  if prices.length = 0 ∨ volumes.length = 0 ∨ prices.length ≠ volumes.length then 0
  else
    let totalPV := (prices.zip volumes).foldl (fun acc pv => acc + pv.1 * pv.2) 0
    let totalVolume := volumes.foldl (fun acc v => acc + v) 0
    if totalVolume = 0 then 0 else totalPV / totalVolume

/-- One step of the findSupportResistance scan: the window check at index i
(no neighbour within ±5 strictly lower ⇒ support, none strictly higher ⇒
resistance), appending while fewer than 3 were collected. -/
def supportResistanceStep (prices : List ℚ) (acc : List ℚ × List ℚ) (i : ℕ) :
    List ℚ × List ℚ :=
  let isSupport := (List.range' (i - 5) 11).all
    (fun j => j == i || !(decide (prices.getD j 0 < prices.getD i 0)))
  let isResistance := (List.range' (i - 5) 11).all
    (fun j => j == i || !(decide (prices.getD i 0 < prices.getD j 0)))
  let sup := if isSupport ∧ acc.1.length < 3 then acc.1 ++ [prices.getD i 0] else acc.1
  let res := if isResistance ∧ acc.2.length < 3 then acc.2 ++ [prices.getD i 0] else acc.2
  (sup, res)

/-- findSupportResistance: scan the interior indices 10 … len−11, then sort
both collections ascending (sort.Float64s modelled by insertion sort — on a
multiset of rationals every sort returns the same list). -/
def findSupportResistance (prices : List ℚ) : List ℚ × List ℚ :=
  if prices.length < 20 then ([], [])
  else
    let scanned := (List.range' 10 (prices.length - 20)).foldl
      (supportResistanceStep prices) ([], [])
    (scanned.1.insertionSort (· ≤ ·), scanned.2.insertionSort (· ≤ ·))

/-- determineTrend: moving-average stacking (±3), 20-bar SMA momentum (±2)
and MACD histogram sign (±1); label from the point total, strength
|points|/6×100. -/
def determineTrend (prices : List ℚ) (indicators : TechnicalIndicators) :
    String × ℚ :=
  if prices.length < 50 then ("neutral", 0)
  else
    let current := (prices.getLast?).getD 0
    let maPoints : ℚ :=
      if indicators.SMA20 < current ∧ indicators.SMA50 < indicators.SMA20 ∧
          indicators.SMA200 < indicators.SMA50 then 3
      else if current < indicators.SMA20 ∧ indicators.SMA20 < indicators.SMA50 ∧
          indicators.SMA50 < indicators.SMA200 then -3
      else 0
    let recent20 := calculateSMA (prices.drop (prices.length - 20)) 20
    let older20 := calculateSMA ((prices.drop (prices.length - 40)).take 20) 20
    let paPoints : ℚ := if older20 < recent20 then 2 else -2
    let macdPoints : ℚ := if 0 < indicators.MACD.Histogram then 1 else -1
    let trendPoints := maPoints + paPoints + macdPoints
    let strength := |trendPoints| / 6 * 100
    if 2 < trendPoints then ("bullish", strength)
    else if trendPoints < -2 then ("bearish", strength)
    else ("neutral", strength)

/-- detectCandlePattern from the last 3 closes. -/
def detectCandlePattern (prices : List ℚ) : String :=
  if prices.length < 5 then "none"
  else
    let recent := prices.drop (prices.length - 3)
    let r0 := recent.getD 0 0
    let r1 := recent.getD 1 0
    let r2 := recent.getD 2 0
    if r0 < r1 ∧ r1 < r2 ∧ r1 * (101/100) < r2 then "bullish_engulfing"
    else if r1 < r0 ∧ r2 < r1 ∧ r2 < r1 * (99/100) then "bearish_engulfing"
    else if |r2 - r1| < r1 * (1/1000) then "doji"
    else "none"

/-- detectChartPattern from the last 50 closes, split into 10 five-point
segments whose highs/lows are tracked. -/
def detectChartPattern (prices : List ℚ) : String :=
  if prices.length < 50 then "none"
  else
    let recent50 := prices.drop (prices.length - 50)
    let segs := (List.range 10).map
      (fun k => (recent50.drop (5 * k)).take (min 5 (recent50.length - 5 * k)))
    let highs := segs.map (fun seg => maxFold seg (seg.headD 0))
    let lows := segs.map (fun seg => minFold seg (seg.headD 0))
    if 3 ≤ highs.length ∧ 3 ≤ lows.length then
      let highsDescending := (highs.getLast?).getD 0 < highs.headD 0
      let lowsAscending := lows.headD 0 < (lows.getLast?).getD 0
      if highsDescending ∧ lowsAscending then "triangle"
      else if ¬highsDescending ∧ ¬lowsAscending then "channel"
      else "none"
    else "none"

/-- Insertion into the price→volume bucket association list, preserving first
insertion order (the Go map's random iteration order is modelled by
insertion order; no verified property reads the volume profile). -/
def addToBucket : List (ℚ × ℚ) → ℚ → ℚ → List (ℚ × ℚ)
  | [], k, v => [(k, v)]
  | (k', v') :: rest, k, v =>
      if k' = k then (k', v' + v) :: rest else (k', v') :: addToBucket rest k v

/-- calculateVolumeProfile: 0.5-unit price buckets, point of control by a
strict-max scan, ±1% value area, 10-bar volume surge check and the last-bar
accumulation/distribution value. -/
def calculateVolumeProfile (prices volumes : List ℚ) : VolumeProfileData :=
  if prices.length = 0 ∨ volumes.length = 0 then
    { POC := 0, VAH := 0, VAL := 0, VolumeIncrease := false, AccumulationDist := 0 }
  else
    let buckets := (prices.zip volumes).foldl
      (fun m pv => addToBucket m ((goRound (pv.1 * 2) : ℚ) / 2) pv.2) []
    let poc := (buckets.foldl
      (fun (acc : ℚ × ℚ) kv => if acc.2 < kv.2 then kv else acc) (0, 0)).1
    let totalVolume := volumes.sum
    let vah := poc * (101/100)
    let val := poc * (99/100)
    let vlen := volumes.length
    let recentVolume := calculateSMA (volumes.drop (vlen - 10)) (min 10 vlen)
    let olderVolume :=
      calculateSMA ((volumes.drop (vlen - 20)).take ((vlen - 10) - (vlen - 20)))
        (min 10 vlen)
    let volumeIncrease := decide (olderVolume * (12/10) < recentVolume)
    let ad :=
      if 1 < prices.length ∧ 0 < volumes.length then
        let lastP := (prices.getLast?).getD 0
        let prevP := prices.getD (prices.length - 2) 0
        let moneyFlow := (lastP - prevP) / prevP * ((volumes.getLast?).getD 0)
        moneyFlow / totalVolume * 100
      else 0
    { POC := poc, VAH := vah, VAL := val, VolumeIncrease := volumeIncrease,
      AccumulationDist := ad }

/-- calculateBullishScore: the six weighted factors of the composite scorer. -/
def calculateBullishScore (indicators : TechnicalIndicators) : ℚ :=
  let s0 : ℚ × ℚ := (0, 0)
  let s1 := if indicators.Trend = "bullish" then
      (s0.1 + 25 * (indicators.TrendStrength / 100), s0.2 + 25)
    else (s0.1, s0.2 + 25)
  let s2 := if 30 < indicators.RSI ∧ indicators.RSI < 70 then
      (s1.1 + 15 * ((indicators.RSI - 30) / 40), s1.2 + 15)
    else if indicators.RSI ≤ 30 then (s1.1 + 15, s1.2 + 15)
    else (s1.1, s1.2 + 15)
  let s3 := if indicators.MACD.Crossover = "bullish" then (s2.1 + 20, s2.2 + 20)
    else if 0 < indicators.MACD.Histogram then (s2.1 + 10, s2.2 + 20)
    else (s2.1, s2.2 + 20)
  let s4 := if indicators.Stochastic.Oversold then (s3.1 + 10, s3.2 + 10)
    else if 20 < indicators.Stochastic.K ∧ indicators.Stochastic.K < 80 then
      (s3.1 + 5, s3.2 + 10)
    else (s3.1, s3.2 + 10)
  let s5 := if indicators.VolumeProfile.VolumeIncrease ∧
      0 < indicators.VolumeProfile.AccumulationDist then (s4.1 + 15, s4.2 + 15)
    else if 0 < indicators.VolumeProfile.AccumulationDist then
      (s4.1 + 15/2, s4.2 + 15)
    else (s4.1, s4.2 + 15)
  let s6 := if indicators.CandlePattern = "bullish_engulfing" then
      (s5.1 + 15, s5.2 + 15)
    else if indicators.ChartPattern = "triangle" ∨ indicators.ChartPattern = "channel" then
      (s5.1 + 15/2, s5.2 + 15)
    else (s5.1, s5.2 + 15)
  if s6.2 = 0 then 50 else s6.1 / s6.2 * 100

/-- calculateBearishScore: mirror of the bullish scorer. -/
def calculateBearishScore (indicators : TechnicalIndicators) : ℚ :=
  let s0 : ℚ × ℚ := (0, 0)
  let s1 := if indicators.Trend = "bearish" then
      (s0.1 + 25 * (indicators.TrendStrength / 100), s0.2 + 25)
    else (s0.1, s0.2 + 25)
  let s2 := if 70 < indicators.RSI then (s1.1 + 15, s1.2 + 15)
    else if 50 < indicators.RSI ∧ indicators.RSI ≤ 70 then
      (s1.1 + 15 * ((70 - indicators.RSI) / 20), s1.2 + 15)
    else (s1.1, s1.2 + 15)
  let s3 := if indicators.MACD.Crossover = "bearish" then (s2.1 + 20, s2.2 + 20)
    else if indicators.MACD.Histogram < 0 then (s2.1 + 10, s2.2 + 20)
    else (s2.1, s2.2 + 20)
  let s4 := if indicators.Stochastic.Overbought then (s3.1 + 10, s3.2 + 10)
    else if 50 < indicators.Stochastic.K then (s3.1 + 5, s3.2 + 10)
    else (s3.1, s3.2 + 10)
  let s5 := if indicators.VolumeProfile.VolumeIncrease ∧
      indicators.VolumeProfile.AccumulationDist < 0 then (s4.1 + 15, s4.2 + 15)
    else if indicators.VolumeProfile.AccumulationDist < 0 then
      (s4.1 + 15/2, s4.2 + 15)
    else (s4.1, s4.2 + 15)
  let s6 := if indicators.CandlePattern = "bearish_engulfing" then
      (s5.1 + 15, s5.2 + 15)
    else if indicators.CandlePattern = "doji" ∧ indicators.Trend = "bearish" then
      (s5.1 + 15/2, s5.2 + 15)
    else (s5.1, s5.2 + 15)
  if s6.2 = 0 then 50 else s6.1 / s6.2 * 100

/-- CalculateTechnicalIndicators: the full pipeline, returning the Go zero
value for any series shorter than 200 points, and otherwise assembling the
struct field by field in source order (determineTrend receives the partially
built struct exactly as the Go code does). -/
def CalculateTechnicalIndicators (prices volumes : List ℚ) :
    TechnicalIndicators :=
  if prices.length < 200 then TechnicalIndicators.zero
  else
    let i1 := { TechnicalIndicators.zero with
      SMA20 := calculateSMA prices 20
      SMA50 := calculateSMA prices 50
      SMA200 := calculateSMA prices 200
      EMA9 := calculateEMA prices 9
      EMA21 := calculateEMA prices 21 }
    let i2 := { i1 with
      RSI := calculateRSI prices 14
      RSIDivergence := detectRSIDivergence prices (calculateRSI prices 14) }
    let i3 := { i2 with MACD := calculateMACD prices }
    let i4 := { i3 with Stochastic := calculateStochastic prices 14 3 3 }
    let i5 := { i4 with BollingerBands := calculateBollingerBands prices 20 2 }
    let i6 := { i5 with ATR := calculateATR prices 14 }
    let i7 := { i6 with VWAP := calculateVWAP prices volumes }
    let sr := findSupportResistance prices
    let i8 := { i7 with Support := sr.1, Resistance := sr.2 }
    let tr := determineTrend prices i8
    let i9 := { i8 with Trend := tr.1, TrendStrength := tr.2 }
    let i10 := { i9 with
      CandlePattern := detectCandlePattern prices
      ChartPattern := detectChartPattern prices }
    let i11 := { i10 with VolumeProfile := calculateVolumeProfile prices volumes }
    { i11 with
      BullishScore := calculateBullishScore i11
      BearishScore := calculateBearishScore i11 }

/-- getDefaultRiskPercent: the per-tier default max-risk percentage. -/
def getDefaultRiskPercent (riskTolerance : String) : ℚ :=
  if riskTolerance = "conservative" then 1
  else if riskTolerance = "moderate" then 2
  else if riskTolerance = "aggressive" then 3
  else if riskTolerance = "poverty-escape" then 4
  else 2

/-- The resistance-adjustment loop of calculateRiskReward: Go's
`for i, resistance := range technical.Resistance` with its three indexed
branches, carried index included. -/
def adjustTargets (res : List ℚ) (i : ℕ) (t1 t2 t3 : ℚ) : ℚ × ℚ × ℚ :=
  match res with
  | [] => (t1, t2, t3)
  | r :: rest =>
      if i = 0 ∧ r < t1 then adjustTargets rest (i + 1) (r * (995/1000)) t2 t3
      else if i = 1 ∧ r < t2 then adjustTargets rest (i + 1) t1 (r * (995/1000)) t3
      else if i = 2 ∧ r < t3 then adjustTargets rest (i + 1) t1 t2 (r * (995/1000))
      else adjustTargets rest (i + 1) t1 t2 t3

/-- The support-based stop of calculateRiskReward: 1% below the LAST element
of the (ascending-sorted) support list when one exists, else 2% below
entry. -/
def supportStop (currentPrice : ℚ) (support : List ℚ) : ℚ :=
  match support.getLast? with
  | some s => s * (99/100)
  | none => currentPrice * (98/100)

/-- calculateRiskReward: stop-loss from the LAST element of the
ascending-sorted support list (else 2% below entry), replaced by the
ATR-implied stop when that is higher; targets at risk×{2,3,5} capped by the
first three resistance levels; position size from the max-loss budget. -/
def calculateRiskReward (currentPrice : ℚ) (technical : TechnicalIndicators)
    (capital maxRiskPercent : ℚ) : RiskRewardAnalysis :=
  let stopBase := supportStop currentPrice technical.Support
  let stopLoss :=
    if 0 < technical.ATR then
      let atrStop := currentPrice - technical.ATR * (3/2)
      if stopBase < atrStop then atrStop else stopBase
    else stopBase
  let riskAmount0 := currentPrice - stopLoss
  let rawT1 := currentPrice + riskAmount0 * 2
  let rawT2 := currentPrice + riskAmount0 * 3
  let rawT3 := currentPrice + riskAmount0 * 5
  let targets :=
    if 0 < technical.Resistance.length then
      adjustTargets technical.Resistance 0 rawT1 rawT2 rawT3
    else (rawT1, rawT2, rawT3)
  let maxLossAmount := capital * (maxRiskPercent / 100)
  let riskPerShare := currentPrice - stopLoss
  let positionSize : ℤ :=
    if 0 < riskPerShare then goInt (maxLossAmount / riskPerShare) else 0
  let rewardAmount := targets.1 - currentPrice
  let ratio := if 0 < riskPerShare then rewardAmount / riskPerShare else 0
  { EntryPrice := currentPrice
    StopLoss := stopLoss
    Target1 := targets.1
    Target2 := targets.2.1
    Target3 := targets.2.2
    RiskAmount := riskPerShare
    RewardAmount := rewardAmount
    RatioRR := ratio
    PositionSize := positionSize
    MaxLoss := riskPerShare * (positionSize : ℚ)
    MaxProfit := (targets.2.2 - currentPrice) * (positionSize : ℚ) }

/-- calculateConfidence: 50 base plus the technical, trend, risk-reward,
fundamental and sentiment bonuses, capped at 100. -/
def calculateConfidence (analysis : MarketAnalysis) : ℚ :=
  let c0 : ℚ := 50
  let c1 := if 70 < analysis.Technical.BullishScore then c0 + 15
    else if 60 < analysis.Technical.BullishScore then c0 + 10 else c0
  let c2 := if analysis.Technical.Trend = "bullish" ∧
      60 < analysis.Technical.TrendStrength then c1 + 10 else c1
  let c3 := if 3 < analysis.RiskReward.RatioRR then c2 + 10
    else if 2 < analysis.RiskReward.RatioRR then c2 + 5 else c2
  let c4 := if 70 < analysis.Fundamental.FundamentalScore then c3 + 10 else c3
  let c5 := if 70 < analysis.Sentiment.SentimentScore then c4 + 5 else c4
  if 100 < c5 then 100 else c5

/-- determineTimeframe from ATR relative to entry and the trend strength. -/
def determineTimeframe (analysis : MarketAnalysis) : String :=
  if analysis.Technical.ATR < analysis.RiskReward.EntryPrice * (1/100) then
    "intraday"
  else if 70 < analysis.Technical.TrendStrength then "positional"
  else "swing"

/-- determineStrategy: the ordered strategy candidates, returning the first. -/
def determineStrategy (analysis : MarketAnalysis) (signal : TradeSignal) :
    String :=
  if signal.Action ≠ "BUY" then "Wait for better entry"
  else
    let strategies : List String :=
      (if analysis.Technical.RSI < 30 then ["Oversold bounce play"] else []) ++
      (if analysis.Technical.MACD.Crossover = "bullish" then
        ["MACD momentum trade"] else []) ++
      (if analysis.Technical.Trend = "bullish" ∧
          60 < analysis.Technical.TrendStrength then ["Trend following"] else []) ++
      (if analysis.Technical.Support.any
          (fun support =>
            |analysis.RiskReward.EntryPrice - support| / support < 2/100) then
        ["Support level bounce"] else []) ++
      (if analysis.Technical.ChartPattern = "triangle" then
        ["Triangle breakout"] else [])
    strategies.headD "General momentum trade"

/-- estimateHoldingPeriod from the timeframe label. -/
def estimateHoldingPeriod (timeframe : String) : String :=
  if timeframe = "intraday" then "1-2 days"
  else if timeframe = "swing" then "3-10 days"
  else if timeframe = "positional" then "2-4 weeks"
  else "5-7 days"

/-- calculatePriority: base 5, strength and confidence bonuses, risk-reward
bonus, warning penalties, clamped to [1,10]. -/
def calculatePriority (signal : TradeSignal) (analysis : MarketAnalysis) : ℤ :=
  let strengthBonus : ℤ := if signal.Strength = "strong" then 2
    else if signal.Strength = "moderate" then 1 else 0
  let confidenceBonus : ℤ := if 80 < analysis.Confidence then 2
    else if 70 < analysis.Confidence then 1 else 0
  let ratioBonus : ℤ := if 3 < analysis.RiskReward.RatioRR then 1 else 0
  let warningPenalty : ℤ := if 2 < signal.Warnings.length then 2
    else if 0 < signal.Warnings.length then 1 else 0
  let p := 5 + strengthBonus + confidenceBonus + ratioBonus - warningPenalty
  if 10 < p then 10 else if p < 1 then 1 else p

/-- The decision-table block of GenerateTradeSignal: the default HOLD/weak
signal transformed by the strong-buy, moderate-buy and strong-sell
branches (action, strength, timeframe, reasons and the SELL warning). -/
def initialSignal (analysis : MarketAnalysis) : TradeSignal :=
  let base : TradeSignal :=
    { Action := "HOLD", Strength := "weak", Timeframe := "", Strategy := ""
      Reasons := [], Warnings := [], ExpectedReturn := 0, HoldingPeriod := ""
      Priority := 0 }
  let bullishScore := analysis.Technical.BullishScore
  let bearishScore := analysis.Technical.BearishScore
  let confidence := analysis.Confidence
  if 70 < bullishScore ∧ 75 < confidence then
      { base with
        Action := "BUY", Strength := "strong"
        Timeframe := determineTimeframe analysis
        Reasons :=
          ["Strong bullish score: " ++ toString bullishScore ++ "%"] ++
          (if analysis.Technical.RSI < 40 then
            ["RSI oversold - good entry point"] else []) ++
          (if analysis.Technical.MACD.Crossover = "bullish" then
            ["MACD bullish crossover"] else []) ++
          (if analysis.Technical.Trend = "bullish" then
            ["Bullish trend with " ++ toString analysis.Technical.TrendStrength
              ++ "% strength"] else []) }
  else if 60 < bullishScore ∧ 65 < confidence then
    { base with
      Action := "BUY", Strength := "moderate"
      Timeframe := determineTimeframe analysis
      Reasons := ["Moderate bullish score: " ++ toString bullishScore ++ "%"] }
  else if 70 < bearishScore ∧ 75 < confidence then
    { base with
      Action := "SELL", Strength := "strong"
      Reasons := ["Strong bearish score: " ++ toString bearishScore ++ "%"]
      Warnings :=
        if 70 < analysis.Technical.RSI then
          ["RSI overbought - potential reversal"] else [] }
  else base

/-- GenerateTradeSignal: the decision-table block, then the volatility and
risk-reward warnings, strategy, expected return and priority, assembled in
source order. -/
def GenerateTradeSignal (analysis : MarketAnalysis)
    (_riskTolerance : String) : TradeSignal :=
  let s1 := initialSignal analysis
  let s2 := { s1 with Warnings := s1.Warnings ++
    (if 5 < analysis.Technical.BollingerBands.Width then
      ["High volatility detected"] else []) ++
    (if analysis.RiskReward.RatioRR < 2 then
      ["Risk-reward ratio below optimal (< 1:2)"] else []) }
  let s3 := { s2 with Strategy := determineStrategy analysis s2 }
  let s4 :=
    if s3.Action = "BUY" then
      { s3 with
        ExpectedReturn :=
          (analysis.RiskReward.Target1 - analysis.RiskReward.EntryPrice) /
            analysis.RiskReward.EntryPrice * 100
        HoldingPeriod := estimateHoldingPeriod s3.Timeframe }
    else s3
  { s4 with Priority := calculatePriority s4 analysis }

/-- The numeric content of the map returned by calculateOptimalPosition
(the formatted-string rendering of the Go map is not modelled). -/
structure OptimalPosition where
  PositionSize     : ℤ
  InvestmentAmount : ℚ
  RiskAmount       : ℚ
  RiskPercentage   : ℚ
  Target1          : ℚ
  Target2          : ℚ
  Target3          : ℚ
  Profit1          : ℚ
  Profit2          : ℚ
  Profit3          : ℚ
  KellyPercent     : ℚ
  deriving Repr, DecidableEq

/-- The base-risk computation of calculateOptimalPosition: the per-strategy
default, the poverty-escape adjustments, and the 5% cap. -/
def optimalBaseRisk (capital : ℚ) (strategy : String) (confidence : ℚ)
    (povertyEscapeMode : Bool) : ℚ :=
  let baseRisk0 : ℚ :=
    if strategy = "scalping" then 1/2
    else if strategy = "intraday" then 1
    else if strategy = "swing" then 2
    else if strategy = "positional" then 3
    else 2
  let capitalFactor : ℚ := if capital < 50000 then 2
    else if capital < 100000 then 3/2 else 1
  let confidenceFactor : ℚ := if 80 < confidence then 12/10
    else if confidence < 60 then 8/10 else 1
  let baseRisk1 :=
    if povertyEscapeMode then baseRisk0 * capitalFactor * confidenceFactor
    else baseRisk0
  if 5 < baseRisk1 then 5 else baseRisk1

/-- calculateOptimalPosition: strategy base risk with poverty-escape
adjustments, position sizing with the 33%-of-capital cap, targets/profits
and the quarter-Kelly suggestion. -/
def calculateOptimalPosition (capital entryPrice stopLoss : ℚ)
    (strategy : String) (confidence : ℚ) (povertyEscapeMode : Bool) :
    OptimalPosition :=
  let baseRisk := optimalBaseRisk capital strategy confidence povertyEscapeMode
  let riskAmount0 := capital * (baseRisk / 100)
  let riskPerShare := |entryPrice - stopLoss|
  let positionSize0 : ℤ :=
    if 0 < riskPerShare then goInt (riskAmount0 / riskPerShare) else 0
  let investment0 := (positionSize0 : ℚ) * entryPrice
  let resized := capital * (33/100) < investment0
  let positionSize : ℤ :=
    if resized then goInt (capital * (33/100) / entryPrice) else positionSize0
  let investmentAmount :=
    if resized then (positionSize : ℚ) * entryPrice else investment0
  let riskAmount :=
    if resized then (positionSize : ℚ) * riskPerShare else riskAmount0
  let target1 := entryPrice + riskPerShare * 2
  let target2 := entryPrice + riskPerShare * 3
  let target3 := entryPrice + riskPerShare * 5
  let profit1 := (positionSize : ℚ) * (target1 - entryPrice)
  let profit2 := (positionSize : ℚ) * (target2 - entryPrice)
  let profit3 := (positionSize : ℚ) * (target3 - entryPrice)
  let winRate := confidence / 100
  let avgWin := (target2 - entryPrice) / entryPrice
  let avgLoss := (entryPrice - stopLoss) / entryPrice
  let kellyPercent :=
    if 0 < avgLoss then
      ((winRate * avgWin - (1 - winRate) * avgLoss) / avgWin) * 100 * (1/4)
    else 0
  { PositionSize := positionSize
    InvestmentAmount := investmentAmount
    RiskAmount := riskAmount
    RiskPercentage := baseRisk
    Target1 := target1, Target2 := target2, Target3 := target3
    Profit1 := profit1, Profit2 := profit2, Profit3 := profit3
    KellyPercent := kellyPercent }

/-! Supporting lemmas. -/

theorem goInt_nonneg {x : ℚ} (h : 0 ≤ x) : 0 ≤ goInt x := by
  unfold goInt
  rw [if_pos h]
  exact Int.floor_nonneg.2 h

theorem goInt_le_self {x : ℚ} (h : 0 ≤ x) : (goInt x : ℚ) ≤ x := by
  unfold goInt
  rw [if_pos h]
  exact Int.floor_le x

theorem goInt_nonpos {x : ℚ} (h : x ≤ 0) : goInt x ≤ 0 := by
  unfold goInt
  split_ifs with h0
  · have hx : x = 0 := le_antisymm h h0
    simp [hx]
  · exact Int.ceil_le.2 (by exact_mod_cast h)

theorem minFold_le_init : ∀ (l : List ℚ) (init : ℚ), minFold l init ≤ init := by
  intro l
  induction l with
  | nil => intro init; exact le_refl _
  | cons a t ih =>
    intro init
    have h1 : minFold (a :: t) init = minFold t (if a < init then a else init) := rfl
    rw [h1]
    refine le_trans (ih _) ?_
    split_ifs with h
    · exact le_of_lt h
    · exact le_refl _

theorem minFold_le_mem : ∀ (l : List ℚ) (init x : ℚ), x ∈ l → minFold l init ≤ x := by
  intro l
  induction l with
  | nil => intro init x hx; cases hx
  | cons a t ih =>
    intro init x hx
    have h1 : minFold (a :: t) init = minFold t (if a < init then a else init) := rfl
    rw [h1]
    rcases List.mem_cons.1 hx with rfl | hx
    · refine le_trans (minFold_le_init _ _) ?_
      split_ifs with h
      · exact le_refl _
      · exact le_of_not_lt h
    · exact ih _ x hx

theorem le_maxFold_init : ∀ (l : List ℚ) (init : ℚ), init ≤ maxFold l init := by
  intro l
  induction l with
  | nil => intro init; exact le_refl _
  | cons a t ih =>
    intro init
    have h1 : maxFold (a :: t) init = maxFold t (if init < a then a else init) := rfl
    rw [h1]
    refine le_trans ?_ (ih _)
    split_ifs with h
    · exact le_of_lt h
    · exact le_refl _

theorem mem_le_maxFold : ∀ (l : List ℚ) (init x : ℚ), x ∈ l → x ≤ maxFold l init := by
  intro l
  induction l with
  | nil => intro init x hx; cases hx
  | cons a t ih =>
    intro init x hx
    have h1 : maxFold (a :: t) init = maxFold t (if init < a then a else init) := rfl
    rw [h1]
    rcases List.mem_cons.1 hx with rfl | hx
    · refine le_trans ?_ (le_maxFold_init _ _)
      split_ifs with h
      · exact le_refl _
      · exact le_of_not_lt h
    · exact ih _ x hx

theorem mem_of_getLast? {l : List ℚ} {a : ℚ} (h : l.getLast? = some a) :
    a ∈ l := by
  cases l with
  | nil => simp at h
  | cons b t =>
    have hne : (b :: t) ≠ [] := by simp
    rw [List.getLast?_eq_getLast _ hne] at h
    exact Option.some.inj h ▸ List.getLast_mem hne

theorem sorted_le_getLast : ∀ {l : List ℚ}, List.Sorted (· ≤ ·) l →
    ∀ {a : ℚ}, l.getLast? = some a → ∀ {x : ℚ}, x ∈ l → x ≤ a := by
  intro l
  induction l with
  | nil => intro _ a h; simp at h
  | cons b t ih =>
    intro hs a h x hx
    rcases List.sorted_cons.1 hs with ⟨hb, ht⟩
    cases t with
    | nil =>
      simp at h hx
      rw [hx, h]
    | cons c t' =>
      rw [List.getLast?_cons_cons] at h
      rcases List.mem_cons.1 hx with rfl | hx
      · exact hb a (mem_of_getLast? h)
      · exact ih ht h hx

theorem findSupportResistance_sorted (prices : List ℚ) :
    List.Sorted (· ≤ ·) (findSupportResistance prices).1 ∧
    List.Sorted (· ≤ ·) (findSupportResistance prices).2 := by
  unfold findSupportResistance
  split_ifs
  · exact ⟨List.sorted_nil, List.sorted_nil⟩
  · exact ⟨List.sorted_insertionSort _ _, List.sorted_insertionSort _ _⟩

/-- The per-index form of the resistance-capping loop. -/
def capToResistance : Option ℚ → ℚ → ℚ
  | some r, t => if r < t then r * (995/1000) else t
  | none, t => t

theorem adjustTargets_ge3 : ∀ (res : List ℚ) (i : ℕ), 3 ≤ i → ∀ t1 t2 t3 : ℚ,
    adjustTargets res i t1 t2 t3 = (t1, t2, t3) := by
  intro res
  induction res with
  | nil => intro i h t1 t2 t3; rfl
  | cons r rest ih =>
    intro i h t1 t2 t3
    rw [adjustTargets, if_neg, if_neg, if_neg]
    · exact ih (i + 1) (by omega) t1 t2 t3
    · rintro ⟨h0, -⟩; omega
    · rintro ⟨h0, -⟩; omega
    · rintro ⟨h0, -⟩; omega

theorem adjustTargets_closed (res : List ℚ) (t1 t2 t3 : ℚ) :
    adjustTargets res 0 t1 t2 t3 =
      (capToResistance res[0]? t1, capToResistance res[1]? t2,
        capToResistance res[2]? t3) := by
  rcases res with _ | ⟨a, _ | ⟨b, _ | ⟨c, rest⟩⟩⟩
  · rfl
  · simp only [adjustTargets, capToResistance, List.getElem?_cons_zero,
      List.getElem?_cons_succ, List.getElem?_nil]
    by_cases h1 : a < t1 <;> simp [h1]
  · simp only [adjustTargets, capToResistance, List.getElem?_cons_zero,
      List.getElem?_cons_succ, List.getElem?_nil]
    by_cases h1 : a < t1 <;> by_cases h2 : b < t2 <;> simp [h1, h2]
  · simp only [adjustTargets, capToResistance, List.getElem?_cons_zero,
      List.getElem?_cons_succ, List.getElem?_nil]
    rw [show (2 : ℕ) + 1 = 3 from rfl]
    by_cases h1 : a < t1 <;> by_cases h2 : b < t2 <;> by_cases h3 : c < t3 <;>
      simp [h1, h2, h3, adjustTargets_ge3 rest 3 (by omega)]

set_option maxHeartbeats 1000000 in
theorem calculatePriority_bounds (signal : TradeSignal)
    (analysis : MarketAnalysis) :
    3 ≤ calculatePriority signal analysis ∧
      calculatePriority signal analysis ≤ 10 := by
  simp only [calculatePriority]
  split_ifs <;> omega

set_option maxHeartbeats 1000000 in
theorem optimalBaseRisk_pos (capital : ℚ) (strategy : String)
    (confidence : ℚ) (povertyEscapeMode : Bool) :
    0 < optimalBaseRisk capital strategy confidence povertyEscapeMode := by
  simp only [optimalBaseRisk]
  split_ifs <;> norm_num

/-! Claim C1. -/

/-- A TechnicalIndicators value whose detected supports are 90 and 95
(ascending, as findSupportResistance returns them) and whose ATR is 0. -/
def tech9095 : TechnicalIndicators :=
  { TechnicalIndicators.zero with Support := [90, 95] }

/-- C1 counterexample: with the ascending support list [90, 95] and entry
100, the code's stop-loss is 0.99 × 95 = 94.05, not 0.99 × 90 = 89.1 as the
claim's "lowest known support level" asserts. -/
theorem C1_counterexample :
    List.Sorted (· ≤ ·) tech9095.Support ∧
    (calculateRiskReward 100 tech9095 50000 2).StopLoss = 1881/20 ∧
    (1881 : ℚ)/20 ≠ (99/100) * 90 := by
  refine ⟨?_, ?_, by norm_num⟩
  · simp only [tech9095, List.sorted_cons]
    norm_num
  · norm_num [calculateRiskReward, supportStop, tech9095,
      TechnicalIndicators.zero, goInt, adjustTargets]

/-- C1 (amended): the base stop-loss is 0.99 × the HIGHEST detected support
(the last element of the ascending-sorted list) when one exists, else
0.98 × entry; when ATR > 0 and the ATR-implied stop entry − 1.5×ATR is
higher, it replaces that base, so the engine uses the tighter stop. -/
theorem C1_stopLoss_highest_support (entry capital pct : ℚ)
    (tech : TechnicalIndicators)
    (hsorted : List.Sorted (· ≤ ·) tech.Support) :
    (∀ x ∈ tech.Support, ∀ t, tech.Support.getLast? = some t → x ≤ t) ∧
    (calculateRiskReward entry tech capital pct).StopLoss =
      (if 0 < tech.ATR ∧
          supportStop entry tech.Support < entry - tech.ATR * (3/2)
        then entry - tech.ATR * (3/2)
        else supportStop entry tech.Support) := by
  constructor
  · intro x hx t ht
    exact sorted_le_getLast hsorted ht hx
  · simp only [calculateRiskReward]
    by_cases h1 : 0 < tech.ATR
    · by_cases h2 : supportStop entry tech.Support < entry - tech.ATR * (3/2)
      · rw [if_pos h1, if_pos h2, if_pos ⟨h1, h2⟩]
      · rw [if_pos h1, if_neg h2, if_neg (fun hc => h2 hc.2)]
    · rw [if_neg h1, if_neg (fun hc => h1 hc.1)]

/-- C1 witness: the amended statement at entry 100 with supports [90, 95]. -/
theorem C1_witness :
    (∀ x ∈ tech9095.Support, ∀ t, tech9095.Support.getLast? = some t → x ≤ t) ∧
    (calculateRiskReward 100 tech9095 50000 2).StopLoss =
      (if 0 < tech9095.ATR ∧
          supportStop 100 tech9095.Support < 100 - tech9095.ATR * (3/2)
        then 100 - tech9095.ATR * (3/2)
        else supportStop 100 tech9095.Support) :=
  C1_stopLoss_highest_support 100 50000 2 tech9095
    (by simp only [tech9095, List.sorted_cons]; norm_num)

/-! Claim C2. -/

/-- C2 counterexample: calculateRiskReward — the function that produces every
RiskRewardAnalysis — applies no 33%-of-capital cap: with entry 100, stop 98,
capital 50000 and max-risk 2% it returns position size 500, whose value
500 × 100 = 50000 far exceeds 33% of capital (16500) plus one unit. -/
theorem C2_counterexample :
    0 < (100 : ℚ) ∧ 0 < (50000 : ℚ) ∧ 0 < (2 : ℚ) ∧
    (calculateRiskReward 100 TechnicalIndicators.zero 50000 2).PositionSize =
      500 ∧
    ¬((500 : ℚ) * 100 ≤ 50000 * (33/100) + 100) := by
  refine ⟨by norm_num, by norm_num, by norm_num, ?_, by norm_num⟩
  norm_num [calculateRiskReward, supportStop, TechnicalIndicators.zero,
    goInt, adjustTargets]

/-- C2 (amended): the 33% cap lives in calculateOptimalPosition (the
position-sizing tool), not in calculateRiskReward: for positive capital and
entry its position size is non-negative and its value never exceeds 33% of
capital. -/
theorem C2_position_cap (capital entryPrice stopLoss confidence : ℚ)
    (strategy : String) (povertyEscapeMode : Bool)
    (hc : 0 < capital) (he : 0 < entryPrice) :
    0 ≤ (calculateOptimalPosition capital entryPrice stopLoss strategy
        confidence povertyEscapeMode).PositionSize ∧
    ((calculateOptimalPosition capital entryPrice stopLoss strategy
        confidence povertyEscapeMode).PositionSize : ℚ) * entryPrice ≤
      capital * (33/100) := by
  have hbr := optimalBaseRisk_pos capital strategy confidence povertyEscapeMode
  simp only [calculateOptimalPosition]
  set br := optimalBaseRisk capital strategy confidence povertyEscapeMode
    with hbrdef
  set rps := |entryPrice - stopLoss| with hrpsdef
  set ps0 : ℤ := if 0 < rps then goInt (capital * (br / 100) / rps) else 0
    with hps0def
  have hps0 : 0 ≤ ps0 := by
    rw [hps0def]
    split_ifs with h
    · exact goInt_nonneg (div_nonneg
        (mul_nonneg hc.le (div_nonneg hbr.le (by norm_num))) h.le)
    · exact le_refl 0
  by_cases hre : capital * (33/100) < (ps0 : ℚ) * entryPrice
  · rw [if_pos hre]
    have harg : 0 ≤ capital * (33/100) / entryPrice :=
      div_nonneg (mul_nonneg hc.le (by norm_num)) he.le
    constructor
    · exact goInt_nonneg harg
    · calc ((goInt (capital * (33/100) / entryPrice)) : ℚ) * entryPrice
          ≤ capital * (33/100) / entryPrice * entryPrice :=
            mul_le_mul_of_nonneg_right (goInt_le_self harg) he.le
        _ = capital * (33/100) := div_mul_cancel₀ _ (ne_of_gt he)
  · rw [if_neg hre]
    exact ⟨hps0, not_lt.1 hre⟩

/-- C2 witness: the amended statement at the claim's own example (entry 100,
stop 98, capital 50000, strategy swing, 2% base risk), where the raw size
500 is shrunk to 165 units and the risk amount recomputed to 330. -/
theorem C2_witness :
    0 < (50000 : ℚ) ∧ 0 < (100 : ℚ) ∧
    (0 ≤ (calculateOptimalPosition 50000 100 98 "swing" 70 false).PositionSize ∧
      ((calculateOptimalPosition 50000 100 98 "swing" 70
          false).PositionSize : ℚ) * 100 ≤ 50000 * (33/100)) ∧
    (calculateOptimalPosition 50000 100 98 "swing" 70 false).PositionSize =
      165 ∧
    (calculateOptimalPosition 50000 100 98 "swing" 70 false).RiskAmount =
      330 := by
  refine ⟨by norm_num, by norm_num,
    C2_position_cap 50000 100 98 70 "swing" false (by norm_num) (by norm_num),
    ?_, ?_⟩
  · norm_num +decide [calculateOptimalPosition, optimalBaseRisk, goInt]
  · norm_num +decide [calculateOptimalPosition, optimalBaseRisk, goInt]

/-! Claim C3. -/

/-- C3 counterexample: a detected support ABOVE the entry (support 110,
entry 100, ATR 0) gives stop-loss 0.99 × 110 = 108.9, which is not below
the entry — the claim's "regardless of where the detected support levels
lie" fails. -/
theorem C3_counterexample :
    0 < (100 : ℚ) ∧
    ¬((calculateRiskReward 100
        { TechnicalIndicators.zero with Support := [110] }
        50000 2).StopLoss < 100) := by
  refine ⟨by norm_num, ?_⟩
  norm_num [calculateRiskReward, supportStop, TechnicalIndicators.zero,
    goInt, adjustTargets]

/-- C3 (amended): the stop-loss is strictly below a positive entry provided
every detected support level is at most the entry price (in particular when
all supports lie below the entry); supports above the entry can push the
stop to or above the entry. -/
theorem C3_stop_below_entry (entry capital pct : ℚ)
    (tech : TechnicalIndicators)
    (he : 0 < entry) (hsup : ∀ s ∈ tech.Support, s ≤ entry) :
    (calculateRiskReward entry tech capital pct).StopLoss < entry := by
  have hbase : supportStop entry tech.Support < entry := by
    unfold supportStop
    cases h : tech.Support.getLast? with
    | none =>
      show entry * (98/100) < entry
      nlinarith
    | some s =>
      have hs : s ≤ entry := hsup s (mem_of_getLast? h)
      show s * (99/100) < entry
      nlinarith
  simp only [calculateRiskReward]
  split_ifs with h1 h2
  · nlinarith
  · exact hbase
  · exact hbase

/-- C3 witness: the amended statement with no supports at entry 100, where
the stop is 98 < 100. -/
theorem C3_witness :
    0 < (100 : ℚ) ∧
    (calculateRiskReward 100 TechnicalIndicators.zero 50000 2).StopLoss
      < 100 :=
  ⟨by norm_num,
    C3_stop_below_entry 100 50000 2 TechnicalIndicators.zero (by norm_num)
      (by intro s hs; simp [TechnicalIndicators.zero] at hs)⟩

/-! Claim C4. -/

/-- C4 counterexample: for a series shorter than 200 points the pipeline
returns the Go zero struct, whose RSI field is 0 — not the "documented
neutral" 50 — and whose trend label is the empty string, not "neutral". -/
theorem C4_counterexample :
    ([] : List ℚ).length < 200 ∧
    (CalculateTechnicalIndicators [] []).RSI = 0 ∧ ((0 : ℚ) ≠ 50) ∧
    (CalculateTechnicalIndicators [] []).Trend = "" ∧ "" ≠ "neutral" := by
  refine ⟨by norm_num, ?_, by norm_num, ?_, by simp⟩
  · norm_num [CalculateTechnicalIndicators, TechnicalIndicators.zero]
  · norm_num [CalculateTechnicalIndicators, TechnicalIndicators.zero]

/-- C4 (amended): any series shorter than 200 points yields exactly the Go
zero value of TechnicalIndicators — in particular RSI = 0 (not 50) and the
trend label is the empty string (not "neutral"). -/
theorem C4_short_series_zero (prices volumes : List ℚ)
    (h : prices.length < 200) :
    CalculateTechnicalIndicators prices volumes = TechnicalIndicators.zero ∧
    TechnicalIndicators.zero.RSI = 0 ∧ TechnicalIndicators.zero.Trend = "" := by
  refine ⟨?_, rfl, rfl⟩
  simp only [CalculateTechnicalIndicators]
  rw [if_pos h]

/-- C4 witness: the amended statement at the empty series. -/
theorem C4_witness :
    CalculateTechnicalIndicators [] [] = TechnicalIndicators.zero ∧
    TechnicalIndicators.zero.RSI = 0 ∧ TechnicalIndicators.zero.Trend = "" :=
  C4_short_series_zero [] [] (by norm_num)

/-! Claim C5. -/

/-- C5 counterexample: when the last 14 closes are all equal the Go code
divides 0 by 0 — the %K computation is undefined (NaN), made explicit here
by the Option-valued model returning none. -/
theorem C5_counterexample :
    14 ≤ (List.replicate 14 (100 : ℚ)).length ∧
    stochasticK? (List.replicate 14 (100 : ℚ)) 14 = none := by
  constructor
  · simp
  · norm_num [stochasticK?, stochLowest, stochHighest, stochRecent, minFold,
      maxFold, List.replicate]

/-- C5 (amended): for a series of at least 14 points whose last-14 window
contains two distinct closes, %K is a defined value lying in [0, 100]; a
constant window makes the division 0/0 (NaN). -/
theorem C5_percentK_defined (prices : List ℚ) (h14 : 14 ≤ prices.length)
    (hne : stochLowest prices 14 ≠ stochHighest prices 14) :
    ∃ k, stochasticK? prices 14 = some k ∧ 0 ≤ k ∧ k ≤ 100 := by
  have hlen : ¬ prices.length < 14 := by omega
  have hwlen : (stochRecent prices 14).length = 14 := by
    unfold stochRecent
    rw [List.length_drop]
    omega
  have hwne : stochRecent prices 14 ≠ [] := by
    intro hc
    rw [hc] at hwlen
    simp at hwlen
  have hlast : (stochRecent prices 14).getLast? = prices.getLast? := by
    unfold stochRecent
    rw [List.getLast?_drop, if_neg (by omega)]
  have hcur : (prices.getLast?).getD 0 ∈ stochRecent prices 14 := by
    have h1 : (stochRecent prices 14).getLast? =
        some ((stochRecent prices 14).getLast hwne) :=
      List.getLast?_eq_getLast _ hwne
    have h2 : prices.getLast? =
        some ((stochRecent prices 14).getLast hwne) := by
      rw [← hlast]
      exact h1
    rw [h2]
    simp only [Option.getD_some]
    exact List.getLast_mem hwne
  have hlo : stochLowest prices 14 ≤ (prices.getLast?).getD 0 :=
    minFold_le_mem _ _ _ hcur
  have hhi : (prices.getLast?).getD 0 ≤ stochHighest prices 14 :=
    mem_le_maxFold _ _ _ hcur
  have hlohi : stochLowest prices 14 ≤ stochHighest prices 14 :=
    le_trans (minFold_le_init _ _) (le_maxFold_init _ _)
  have hlt : stochLowest prices 14 < stochHighest prices 14 :=
    lt_of_le_of_ne hlohi hne
  have hden : ¬ (stochHighest prices 14 - stochLowest prices 14 = 0) := by
    intro hc
    exact hne (by linarith)
  refine ⟨100 * (((prices.getLast?).getD 0 - stochLowest prices 14) /
      (stochHighest prices 14 - stochLowest prices 14)), ?_, ?_, ?_⟩
  · simp only [stochasticK?]
    rw [if_neg hlen, if_neg hden]
  · exact mul_nonneg (by norm_num)
      (div_nonneg (by linarith) (by linarith))
  · have hq : ((prices.getLast?).getD 0 - stochLowest prices 14) /
        (stochHighest prices 14 - stochLowest prices 14) ≤ 1 :=
      (div_le_one (by linarith)).2 (by linarith)
    nlinarith

/-- C5 witness: the amended statement on a window with closes 100 and 101. -/
theorem C5_witness :
    ∃ k, stochasticK? (List.replicate 13 (100 : ℚ) ++ [101]) 14 = some k ∧
      0 ≤ k ∧ k ≤ 100 :=
  C5_percentK_defined (List.replicate 13 (100 : ℚ) ++ [101]) (by simp)
    (by norm_num [stochLowest, stochHighest, stochRecent, minFold, maxFold,
      List.replicate])

/-! Claim C6. -/

/-- C6 counterexample: on the 26-point series with 25 zeros then 13 the MACD
line is 3/2 while the signal is 0 — the 9-period smoothing of the
single-element list does NOT degenerate to the MACD value; calculateEMA
returns 0 because the list is shorter than the period. -/
theorem C6_counterexample :
    26 ≤ (List.replicate 25 (0 : ℚ) ++ [13]).length ∧
    (calculateMACD (List.replicate 25 (0 : ℚ) ++ [13])).Signal = 0 ∧
    (calculateMACD (List.replicate 25 (0 : ℚ) ++ [13])).MACD = 3/2 ∧
    (calculateMACD (List.replicate 25 (0 : ℚ) ++ [13])).Signal ≠
      (calculateMACD (List.replicate 25 (0 : ℚ) ++ [13])).MACD := by
  have h2 : (calculateMACD (List.replicate 25 (0 : ℚ) ++ [13])).Signal = 0 := by
    norm_num [calculateMACD, calculateEMA, calculateSMA, List.replicate]
  have h3 : (calculateMACD (List.replicate 25 (0 : ℚ) ++ [13])).MACD = 3/2 := by
    norm_num [calculateMACD, calculateEMA, calculateSMA, List.replicate]
  refine ⟨by simp, h2, h3, ?_⟩
  rw [h2, h3]
  norm_num

/-- C6 (amended): for every series of at least 26 points the signal value is
0 (calculateEMA over the single-element list returns 0 since 1 < 9), so the
histogram equals the MACD line itself. -/
theorem C6_signal_always_zero (prices : List ℚ) (h : 26 ≤ prices.length) :
    (calculateMACD prices).Signal = 0 ∧
    (calculateMACD prices).Histogram = (calculateMACD prices).MACD := by
  have hn : ¬ prices.length < 26 := by omega
  have hema : ∀ x : ℚ, calculateEMA [x] 9 = 0 := fun x => by
    unfold calculateEMA
    rw [if_pos (by simp)]
  constructor
  · simp only [calculateMACD]
    rw [if_neg hn]
    show calculateEMA [calculateEMA prices 12 - calculateEMA prices 26] 9 = 0
    exact hema _
  · simp only [calculateMACD]
    rw [if_neg hn]
    show calculateEMA prices 12 - calculateEMA prices 26 -
        calculateEMA [calculateEMA prices 12 - calculateEMA prices 26] 9 =
      calculateEMA prices 12 - calculateEMA prices 26
    rw [hema]
    ring

/-- C6 witness: the amended statement on the 26-point series. -/
theorem C6_witness :
    (calculateMACD (List.replicate 25 (0 : ℚ) ++ [13])).Signal = 0 ∧
    (calculateMACD (List.replicate 25 (0 : ℚ) ++ [13])).Histogram =
      (calculateMACD (List.replicate 25 (0 : ℚ) ++ [13])).MACD :=
  C6_signal_always_zero _ (by simp)

/-! Claim C7. -/

/-- C7: the three targets are entry + risk×{2,3,5} (risk = entry − stop),
each capped down to 99.5% of the corresponding resistance level when that
resistance is below the raw target. -/
theorem C7_targets (entry capital pct : ℚ) (tech : TechnicalIndicators)
    (h : (calculateRiskReward entry tech capital pct).StopLoss < entry) :
    (calculateRiskReward entry tech capital pct).Target1 =
      capToResistance tech.Resistance[0]?
        (entry + (entry - (calculateRiskReward entry tech capital pct).StopLoss) * 2) ∧
    (calculateRiskReward entry tech capital pct).Target2 =
      capToResistance tech.Resistance[1]?
        (entry + (entry - (calculateRiskReward entry tech capital pct).StopLoss) * 3) ∧
    (calculateRiskReward entry tech capital pct).Target3 =
      capToResistance tech.Resistance[2]?
        (entry + (entry - (calculateRiskReward entry tech capital pct).StopLoss) * 5) := by
  simp only [calculateRiskReward]
  cases hres : tech.Resistance with
  | nil => simp [capToResistance]
  | cons r rest =>
    rw [if_pos (by simp)]
    rw [adjustTargets_closed]
    exact ⟨rfl, rfl, rfl⟩

/-- C7 witness: entry 100, stop 98, no resistance levels — the targets are
exactly 104, 106 and 110. -/
theorem C7_witness :
    (calculateRiskReward 100 TechnicalIndicators.zero 50000 2).StopLoss < 100 ∧
    (calculateRiskReward 100 TechnicalIndicators.zero 50000 2).Target1 = 104 ∧
    (calculateRiskReward 100 TechnicalIndicators.zero 50000 2).Target2 = 106 ∧
    (calculateRiskReward 100 TechnicalIndicators.zero 50000 2).Target3 = 110 := by
  have hs : (calculateRiskReward 100 TechnicalIndicators.zero 50000 2).StopLoss
      < 100 := by
    norm_num [calculateRiskReward, supportStop, TechnicalIndicators.zero,
      goInt, adjustTargets]
  obtain ⟨h1, h2, h3⟩ := C7_targets 100 50000 2 TechnicalIndicators.zero hs
  refine ⟨hs, ?_, ?_, ?_⟩
  · rw [h1]
    norm_num [capToResistance, TechnicalIndicators.zero, calculateRiskReward,
      supportStop, goInt, adjustTargets]
  · rw [h2]
    norm_num [capToResistance, TechnicalIndicators.zero, calculateRiskReward,
      supportStop, goInt, adjustTargets]
  · rw [h3]
    norm_num [capToResistance, TechnicalIndicators.zero, calculateRiskReward,
      supportStop, goInt, adjustTargets]

/-! Claim C8. -/

theorem initialSignal_action_strength (analysis : MarketAnalysis) :
    ((initialSignal analysis).Action, (initialSignal analysis).Strength) =
      (if 70 < analysis.Technical.BullishScore ∧ 75 < analysis.Confidence then
          ("BUY", "strong")
        else if 60 < analysis.Technical.BullishScore ∧
            65 < analysis.Confidence then ("BUY", "moderate")
        else if 70 < analysis.Technical.BearishScore ∧
            75 < analysis.Confidence then ("SELL", "strong")
        else ("HOLD", "weak")) := by
  simp only [initialSignal]
  split_ifs <;> rfl

theorem GenerateTradeSignal_action_strength (analysis : MarketAnalysis)
    (rt : String) :
    (GenerateTradeSignal analysis rt).Action =
        (initialSignal analysis).Action ∧
      (GenerateTradeSignal analysis rt).Strength =
        (initialSignal analysis).Strength := by
  simp only [GenerateTradeSignal]
  constructor <;> (split_ifs <;> rfl)

/-- C8: the trade signal's action and strength follow exactly the decision
table over (bullishScore, bearishScore, confidence): BUY/strong iff
bullish > 70 and confidence > 75, else BUY/moderate iff bullish > 60 and
confidence > 65, else SELL/strong iff bearish > 70 and confidence > 75,
else HOLD/weak. -/
theorem C8_decision_table (analysis : MarketAnalysis) (rt : String) :
    ((GenerateTradeSignal analysis rt).Action,
      (GenerateTradeSignal analysis rt).Strength) =
      (if 70 < analysis.Technical.BullishScore ∧ 75 < analysis.Confidence then
          ("BUY", "strong")
        else if 60 < analysis.Technical.BullishScore ∧
            65 < analysis.Confidence then ("BUY", "moderate")
        else if 70 < analysis.Technical.BearishScore ∧
            75 < analysis.Confidence then ("SELL", "strong")
        else ("HOLD", "weak")) := by
  obtain ⟨ha, hs⟩ := GenerateTradeSignal_action_strength analysis rt
  rw [ha, hs]
  exact initialSignal_action_strength analysis

/-! Claim C9. -/

/-- C9 counterexample: with capital −1000 (and entry 100) the core does not
reject — calculateRiskReward still emits a complete plan, with stop 98 and
the nonsensical position size −10. -/
theorem C9_counterexample :
    ((-1000 : ℚ) < 0) ∧
    (calculateRiskReward 100 TechnicalIndicators.zero (-1000) 2).EntryPrice =
      100 ∧
    (calculateRiskReward 100 TechnicalIndicators.zero (-1000) 2).StopLoss =
      98 ∧
    (calculateRiskReward 100 TechnicalIndicators.zero (-1000) 2).PositionSize =
      -10 := by
  refine ⟨by norm_num, ?_, ?_, ?_⟩
  · norm_num [calculateRiskReward, supportStop, TechnicalIndicators.zero,
      goInt, adjustTargets]
  · norm_num [calculateRiskReward, supportStop, TechnicalIndicators.zero,
      goInt, adjustTargets]
  · norm_num [calculateRiskReward, supportStop, TechnicalIndicators.zero,
      goInt, adjustTargets]
    rw [show ((-10 : ℚ)) = ((-10 : ℤ) : ℚ) by norm_num, Int.ceil_intCast]

/-- C9 (amended): the core performs no value validation: for negative
capital or non-positive entry a plan is still produced (echoing the entry),
and with negative capital and a positive risk-per-unit the emitted position
size is non-positive — nonsensical output instead of a rejection. -/
theorem C9_no_validation (entry capital pct : ℚ) (tech : TechnicalIndicators)
    (hbad : capital < 0 ∨ entry ≤ 0) :
    (calculateRiskReward entry tech capital pct).EntryPrice = entry ∧
    (capital < 0 → 0 < pct →
      0 < entry - (calculateRiskReward entry tech capital pct).StopLoss →
      (calculateRiskReward entry tech capital pct).PositionSize ≤ 0) := by
  constructor
  · rfl
  · intro hc hp hrisk
    simp only [calculateRiskReward] at hrisk ⊢
    rw [if_pos hrisk]
    refine goInt_nonpos (le_of_lt ?_)
    exact div_neg_of_neg_of_pos
      (mul_neg_of_neg_of_pos hc (div_pos hp (by norm_num))) hrisk

/-- C9 witness: the amended statement at entry 100 and capital −1000. -/
theorem C9_witness :
    (calculateRiskReward 100 TechnicalIndicators.zero (-1000) 2).EntryPrice =
      100 ∧
    ((-1000 : ℚ) < 0 → 0 < (2 : ℚ) →
      0 < 100 -
        (calculateRiskReward 100 TechnicalIndicators.zero (-1000) 2).StopLoss →
      (calculateRiskReward 100 TechnicalIndicators.zero
        (-1000) 2).PositionSize ≤ 0) :=
  C9_no_validation 100 (-1000) 2 TechnicalIndicators.zero
    (Or.inl (by norm_num))

/-! Claim C10. -/

/-- C10: every generated trade signal's priority lies in [3, 10]: the base
of 5 gains at most 2+2+1 and loses at most 2, so the documented lower clamp
to 1 is unreachable. -/
theorem C10_priority_range (analysis : MarketAnalysis) (rt : String) :
    3 ≤ (GenerateTradeSignal analysis rt).Priority ∧
      (GenerateTradeSignal analysis rt).Priority ≤ 10 := by
  simp only [GenerateTradeSignal]
  exact calculatePriority_bounds _ _

end KiteMCP
